import Mathlib

/-!
Verification of the state-synchronization behaviour of the online 2D football
game (client: src/components/Game.tsx, relay: server.js).

Game.tsx holds two variants of the component. The "minimal networked variant"
(the second half of the file) is the one with socket receive handlers:
it owns three bodies (player, aiPlayer, ball), emits a 'move' message from its
keydown handler and a 'kick' message from kickBall, and applies incoming
'move' / 'kick' messages by directly setting body position and velocity.
The "power-up variant" (the first half) adds power-ups, sounds, a ball clamp
in its beforeUpdate hook, a match phase machine and a win-score check.

The embedding below translates those handlers one by one. JavaScript numbers
are modelled as ℚ wherever the code only does field arithmetic; the square
root used by Matter.Vector.magnitude is not a rational operation, so it is
passed in as an explicit function parameter `sqrtQ` and theorems constrain it
at the points where it is applied. For the claim about non-finite values a
second instantiation over `JSNum` (rationals extended with NaN and the two
infinities) is used; the receive handlers do no arithmetic, only field
copies, so they are defined generically over the number type.
-/

namespace Football

/-- 2D vector, the JS object shape {x, y} used for positions and velocities. -/
structure Vec2 (N : Type) where
  x : N
  y : N
deriving DecidableEq

/-- JavaScript number for the decoder claim: a finite rational, NaN, or an
infinity. The receive handlers copy these values without inspecting them. -/
inductive JSNum where
  | finite (q : ℚ)
  | nan
  | posInf
  | negInf
deriving DecidableEq

/-- Number.isFinite on the JSNum model. -/
def JSNum.isFinite : JSNum → Bool
  | JSNum.finite _ => true
  | _ => false

/-- Position and velocity of one Matter body. -/
structure BodyState (N : Type) where
  position : Vec2 N
  velocity : Vec2 N
deriving DecidableEq

/-- React score state { player1, player2 } (Game.tsx useState). Scores are
integers in the model so that non-negativity is a real statement. -/
structure Score where
  player1 : ℤ
  player2 : ℤ
deriving DecidableEq

/-- The bodies of the minimal networked variant (Game.tsx lines 615-640)
plus the score state. -/
structure GameState (N : Type) where
  player : BodyState N
  aiPlayer : BodyState N
  ball : BodyState N
  score : Score
deriving DecidableEq

/-- Payload of a 'move' message, exactly the fields the client emits at
Game.tsx lines 662-665: { position, velocity }. There is no sequence field. -/
structure MoveMsg (N : Type) where
  position : Vec2 N
  velocity : Vec2 N
deriving DecidableEq

/-- Payload of a 'kick' message (Game.tsx lines 678-681):
{ ballPosition, ballVelocity }. There is no event id field. -/
structure KickMsg (N : Type) where
  ballPosition : Vec2 N
  ballVelocity : Vec2 N
deriving DecidableEq

/-- A socket message, either kind. -/
inductive ClientMsg (N : Type) where
  | move (data : MoveMsg N)
  | kick (data : KickMsg N)
deriving DecidableEq

/-- Test for the 'move' kind. -/
def ClientMsg.isMove {N : Type} : ClientMsg N → Bool
  | ClientMsg.move _ => true
  | ClientMsg.kick _ => false

/-- Handler registered by newSocket.on('move') at Game.tsx lines 687-690:
Body.setPosition(player, data.position); Body.setVelocity(player, data.velocity).
Note the target body is `player`, the locally keyboard-controlled body. -/
def onMove {N : Type} (s : GameState N) (data : MoveMsg N) : GameState N :=
  { s with player := { position := data.position, velocity := data.velocity } }

/-- Handler registered by newSocket.on('kick') at Game.tsx lines 692-695:
Body.setPosition(ball, data.ballPosition); Body.setVelocity(ball, data.ballVelocity). -/
def onKick {N : Type} (s : GameState N) (data : KickMsg N) : GameState N :=
  { s with ball := { position := data.ballPosition, velocity := data.ballVelocity } }

/-- Relay in server.js lines 15-24: io.on('connection') registers listeners
for 'disconnect' and 'move' only; on 'move' it runs
socket.broadcast.emit('move', data). A socket.io event with no registered
listener is ignored, so a 'kick' message is dropped. The result is the list
of messages forwarded to the other peer. -/
def serverRelay {N : Type} (msg : ClientMsg N) : List (ClientMsg N) :=
  match msg with
  | ClientMsg.move d => [ClientMsg.move d]
  | ClientMsg.kick _ => []

/-- Matter.Vector.magnitude: Math.sqrt(x*x + y*y), with the square root
supplied as `sqrtQ`. -/
def magnitude (sqrtQ : ℚ → ℚ) (v : Vec2 ℚ) : ℚ :=
  sqrtQ (v.x * v.x + v.y * v.y)

/-- Matter.Vector.sub. -/
def vsub (a b : Vec2 ℚ) : Vec2 ℚ := ⟨a.x - b.x, a.y - b.y⟩

/-- Matter.Vector.add (used only to express the blending formula of the
specification in a refutation). -/
def vadd (a b : Vec2 ℚ) : Vec2 ℚ := ⟨a.x + b.x, a.y + b.y⟩

/-- Matter.Vector.mult (vector times scalar). -/
def vmult (v : Vec2 ℚ) (s : ℚ) : Vec2 ℚ := ⟨v.x * s, v.y * s⟩

/-- Matter.Vector.normalise: divide by the magnitude, returning the zero
vector when the magnitude is 0. -/
def normalise (sqrtQ : ℚ → ℚ) (v : Vec2 ℚ) : Vec2 ℚ :=
  let m := magnitude sqrtQ v
  if m = 0 then ⟨0, 0⟩ else ⟨v.x / m, v.y / m⟩

/-- Observable effects of one kickBall call: the force passed to
Body.applyForce on the ball (if any), whether a sound was played, and the
socket messages emitted. -/
structure KickResult (N : Type) where
  ballForce : Option (Vec2 N)
  soundPlayed : Bool
  msgs : List (ClientMsg N)
deriving DecidableEq

/-- kickBall of the minimal networked variant (Game.tsx lines 668-683):
kickForce 0.02, kickRange 50; when the kicker-to-ball distance is under the
range it applies kickForce along the normalised kicker-to-ball direction and
emits 'kick' with the ball's current position and velocity. No sound. -/
def kickBallMin (sqrtQ : ℚ → ℚ) (kicker ball : BodyState ℚ) : KickResult ℚ :=
  let kickForce : ℚ := 0.02
  let distance := magnitude sqrtQ (vsub ball.position kicker.position)
  let kickRange : ℚ := 50
  if distance < kickRange then
    { ballForce := some (vmult (normalise sqrtQ (vsub ball.position kicker.position)) kickForce)
    , soundPlayed := false
    , msgs := [ClientMsg.kick { ballPosition := ball.position, ballVelocity := ball.velocity }] }
  else
    { ballForce := none, soundPlayed := false, msgs := [] }

/-- Power-up flavours (Game.tsx lines 19-23). -/
inductive PowerUpType where
  | SPEED_BOOST
  | SUPER_KICK
  | MAGNET_BALL
deriving DecidableEq

/-- kickBall of the power-up variant (Game.tsx lines 299-317): base force
0.03, doubled when the kicker is team1[0] holding SUPER_KICK; inside the
range it applies the force, plays kickSound and emits 'kick'. -/
def kickBallPU (sqrtQ : ℚ → ℚ) (kickerIsPlayerOne : Bool)
    (playerPowerUp : Option PowerUpType) (kicker ball : BodyState ℚ) : KickResult ℚ :=
  let baseKickForce : ℚ := 0.03
  let kickForce :=
    if kickerIsPlayerOne ∧ playerPowerUp = some PowerUpType.SUPER_KICK
    then baseKickForce * 2 else baseKickForce
  let distance := magnitude sqrtQ (vsub ball.position kicker.position)
  let kickRange : ℚ := 50
  if distance < kickRange then
    { ballForce := some (vmult (normalise sqrtQ (vsub ball.position kicker.position)) kickForce)
    , soundPlayed := true
    , msgs := [ClientMsg.kick { ballPosition := ball.position, ballVelocity := ball.velocity }] }
  else
    { ballForce := none, soundPlayed := false, msgs := [] }

/-- Keys handled by the keydown listener of the minimal variant. -/
inductive Key where
  | ArrowUp
  | ArrowDown
  | ArrowLeft
  | ArrowRight
  | Space
  | other
deriving DecidableEq

/-- Observable effects of one handleKeyDown call: the force applied to the
player body (if an arrow key), the force applied to the ball (if a kick
happened), and the socket messages emitted. -/
structure KeyDownResult where
  playerForce : Option (Vec2 ℚ)
  ballForce : Option (Vec2 ℚ)
  msgs : List (ClientMsg ℚ)
deriving DecidableEq

/-- handleKeyDown of the minimal networked variant (Game.tsx lines 642-666):
a switch applying a 0.001 force for the arrow keys and calling kickBall on
spacebar, followed unconditionally by
newSocket.emit('move', { position: player.position, velocity: player.velocity }).
Body.applyForce does not change position or velocity within the call, so the
emitted snapshot carries the player's current state. -/
def handleKeyDown (sqrtQ : ℚ → ℚ) (key : Key) (s : GameState ℚ) : KeyDownResult :=
  let force : ℚ := 0.001
  let base : KeyDownResult :=
    match key with
    | Key.ArrowUp => { playerForce := some ⟨0, -force⟩, ballForce := none, msgs := [] }
    | Key.ArrowDown => { playerForce := some ⟨0, force⟩, ballForce := none, msgs := [] }
    | Key.ArrowLeft => { playerForce := some ⟨-force, 0⟩, ballForce := none, msgs := [] }
    | Key.ArrowRight => { playerForce := some ⟨force, 0⟩, ballForce := none, msgs := [] }
    | Key.Space =>
        let kr := kickBallMin sqrtQ s.player s.ball
        { playerForce := none, ballForce := kr.ballForce, msgs := kr.msgs }
    | Key.other => { playerForce := none, ballForce := none, msgs := [] }
  { base with
    msgs := base.msgs ++ [ClientMsg.move { position := s.player.position, velocity := s.player.velocity }] }

/-- Observable effects of one moveAIPlayer call (the beforeUpdate hook of
the minimal variant): the force applied to the AI body, the force applied to
the ball by a possible kick, and the socket messages emitted. -/
structure AITickResult where
  aiForce : Vec2 ℚ
  ballForce : Option (Vec2 ℚ)
  msgs : List (ClientMsg ℚ)
deriving DecidableEq

/-- moveAIPlayer, registered as the only beforeUpdate handler of the minimal
networked variant (Game.tsx lines 698-718): forceMagnitude 0.0005, steer
toward the ball when the ball is in the AI half (ball.position.x > width/2),
otherwise toward the own goal mouth {x: 0, y: height/2}; then kick when the
ball is within kickRange 50. -/
def moveAIPlayer (sqrtQ : ℚ → ℚ) (width height : ℚ) (s : GameState ℚ) : AITickResult :=
  let forceMagnitude : ℚ := 0.0005
  let toBall := vsub s.ball.position s.aiPlayer.position
  let toGoal := vsub ⟨0, height / 2⟩ s.aiPlayer.position
  let force :=
    if s.ball.position.x > width / 2
    then vmult (normalise sqrtQ toBall) forceMagnitude
    else vmult (normalise sqrtQ toGoal) forceMagnitude
  let kickRange : ℚ := 50
  if magnitude sqrtQ (vsub s.ball.position s.aiPlayer.position) < kickRange then
    let kr := kickBallMin sqrtQ s.aiPlayer s.ball
    { aiForce := force, ballForce := kr.ballForce, msgs := kr.msgs }
  else
    { aiForce := force, ballForce := none, msgs := [] }

/-- Identity of a Matter body for the collision handler. -/
inductive BodyId where
  | player
  | aiPlayer
  | ball
  | leftGoal
  | rightGoal
  | wall (i : Nat)
deriving DecidableEq

/-- One entry of event.pairs in a collisionStart event. -/
structure CollisionPair where
  bodyA : BodyId
  bodyB : BodyId
deriving DecidableEq

/-- resetPositions of the minimal networked variant (Game.tsx lines 736-743). -/
def resetPositions (width height : ℚ) (s : GameState ℚ) : GameState ℚ :=
  { s with
    ball := { position := ⟨width / 2, height / 2⟩, velocity := ⟨0, 0⟩ }
    player := { position := ⟨width / 4, height / 2⟩, velocity := ⟨0, 0⟩ }
    aiPlayer := { position := ⟨3 * width / 4, height / 2⟩, velocity := ⟨0, 0⟩ } }

/-- Body of the collisionStart pair loop (Game.tsx lines 722-733, identical
scoring logic to the power-up variant at lines 419-446): when the pair
involves the ball, the other body is the goal candidate; leftGoal increments
score.player2, rightGoal increments score.player1, each followed by
resetPositions. setScore uses a functional update, so the increment applies
to the current score. -/
def handlePair (width height : ℚ) (s : GameState ℚ) (pair : CollisionPair) : GameState ℚ :=
  if pair.bodyA = BodyId.ball ∨ pair.bodyB = BodyId.ball then
    let goal := if pair.bodyA = BodyId.ball then pair.bodyB else pair.bodyA
    if goal = BodyId.leftGoal then
      resetPositions width height { s with score := { s.score with player2 := s.score.player2 + 1 } }
    else if goal = BodyId.rightGoal then
      resetPositions width height { s with score := { s.score with player1 := s.score.player1 + 1 } }
    else s
  else s

/-- collisionStart handler: event.pairs.forEach over the pair loop. -/
def onCollisionStart (width height : ℚ) (s : GameState ℚ) (pairs : List CollisionPair) : GameState ℚ :=
  pairs.foldl (handlePair width height) s

/-- True when the pair is a ball-with-leftGoal collision, in either order. -/
def isLeftGoalPair (p : CollisionPair) : Bool :=
  (p.bodyA == BodyId.ball && p.bodyB == BodyId.leftGoal)
    || (p.bodyA == BodyId.leftGoal && p.bodyB == BodyId.ball)

/-- True when the pair is a ball-with-rightGoal collision, in either order. -/
def isRightGoalPair (p : CollisionPair) : Bool :=
  (p.bodyA == BodyId.ball && p.bodyB == BodyId.rightGoal)
    || (p.bodyA == BodyId.rightGoal && p.bodyB == BodyId.ball)

/-- Ball clamp section of the power-up variant beforeUpdate handler
(Game.tsx lines 394-415), ballRadius 15 inlined: clamp x to [15, width-15]
negating and halving the x velocity on a clamp, then the same for y reading
the live (possibly already updated) position and velocity, exactly as the
two sequential if blocks in the source do. -/
def clampBall (width height : ℚ) (pos vel : Vec2 ℚ) : Vec2 ℚ × Vec2 ℚ :=
  let s1 : Vec2 ℚ × Vec2 ℚ :=
    if pos.x < 15 then (⟨15, pos.y⟩, ⟨-vel.x * 0.5, vel.y⟩)
    else if pos.x > width - 15 then (⟨width - 15, pos.y⟩, ⟨-vel.x * 0.5, vel.y⟩)
    else (pos, vel)
  if s1.1.y < 15 then (⟨s1.1.x, 15⟩, ⟨s1.2.x, -s1.2.y * 0.5⟩)
  else if s1.1.y > height - 15 then (⟨s1.1.x, height - 15⟩, ⟨s1.2.x, -s1.2.y * 0.5⟩)
  else s1

/-- Match phases of the power-up variant (Game.tsx lines 13-17). -/
inductive GamePhase where
  | START
  | PLAYING
  | END
deriving DecidableEq

/-- WINNING_SCORE = 5 (Game.tsx line 9). -/
def WINNING_SCORE : ℤ := 5

/-- GAME_DURATION = 120 seconds (Game.tsx line 8). -/
def GAME_DURATION : ℤ := 120

/-- Per-match session of the power-up variant. `score` is the current React
state, updated functionally by the collision handler. `captured` is the value
of the `score` binding captured by the PLAYING effect closure: the effect has
dependency list [gamePhase] only (Game.tsx line 520), so score updates
re-render the component but never re-run the effect, and the gameInterval
callback keeps reading the captured value. -/
structure MatchSession where
  score : Score
  captured : Score
  timeLeft : ℤ
  phase : GamePhase
deriving DecidableEq

/-- startGame (Game.tsx lines 109-113) sets PLAYING, score {0,0} and
timeLeft GAME_DURATION; the effect then runs and captures that score. -/
def startMatch : MatchSession :=
  { score := ⟨0, 0⟩, captured := ⟨0, 0⟩, timeLeft := GAME_DURATION, phase := GamePhase.PLAYING }

/-- Which goal sensor the ball hit. -/
inductive GoalSide where
  | left
  | right
deriving DecidableEq

/-- Goal collision effect on the session score (Game.tsx lines 437-441):
leftGoal increments player2, rightGoal increments player1, via a functional
setScore update. The handler only exists while the PLAYING effect is live;
the effect cleanup tears it down on any phase change. The captured closure
value is untouched because React does not re-run the effect. -/
def applyGoalCollision (side : GoalSide) (s : MatchSession) : MatchSession :=
  if s.phase = GamePhase.PLAYING then
    match side with
    | GoalSide.left => { s with score := { s.score with player2 := s.score.player2 + 1 } }
    | GoalSide.right => { s with score := { s.score with player1 := s.score.player1 + 1 } }
  else s

/-- gameInterval callback (Game.tsx lines 495-505): each second, if the
previous timeLeft is already ≤ 0 or the maximum of the closure-captured
score components reaches WINNING_SCORE, clear the intervals, call endGame
(phase END) and set timeLeft 0; otherwise decrement timeLeft. The interval
is cleared by the effect cleanup once the phase leaves PLAYING. -/
def sessionTimerTick (s : MatchSession) : MatchSession :=
  if s.phase = GamePhase.PLAYING then
    if s.timeLeft ≤ 0 ∨ max s.captured.player1 s.captured.player2 ≥ WINNING_SCORE then
      { s with timeLeft := 0, phase := GamePhase.END }
    else
      { s with timeLeft := s.timeLeft - 1 }
  else s

/-- Session after five right-goal collisions from match start: the human
side's score reaches the winning threshold while the captured closure score
stays {0, 0}. -/
def fiveRightGoals : MatchSession :=
  applyGoalCollision GoalSide.right (applyGoalCollision GoalSide.right
    (applyGoalCollision GoalSide.right (applyGoalCollision GoalSide.right
      (applyGoalCollision GoalSide.right startMatch))))

/-- Generic concrete state used as a test input by several refutations. -/
def sampleState : GameState ℚ :=
  { player := { position := ⟨10, 20⟩, velocity := ⟨1, 0⟩ }
  , aiPlayer := { position := ⟨75, 50⟩, velocity := ⟨0, 0⟩ }
  , ball := { position := ⟨0, 0⟩, velocity := ⟨0, 0⟩ }
  , score := ⟨0, 0⟩ }

/-- Concrete incoming 'move' payload clearly different from sampleState's
local player state. -/
def c1Msg : MoveMsg ℚ := { position := ⟨400, 300⟩, velocity := ⟨5, 5⟩ }

/-- Concrete incoming 'kick' payload 10 units away from sampleState's ball. -/
def c2Kick : KickMsg ℚ := { ballPosition := ⟨10, 0⟩, ballVelocity := ⟨0, 0⟩ }

/-- Square root oracle for the inputs of the C2 refutation: 100 ↦ 10. -/
def sqrtC2 : ℚ → ℚ := fun q => if q = 100 then 10 else 0

/-- First snapshot of the stale-delivery refutation. -/
def c3A : MoveMsg ℚ := { position := ⟨1, 1⟩, velocity := ⟨0, 0⟩ }

/-- Second, newer snapshot of the stale-delivery refutation. -/
def c3B : MoveMsg ℚ := { position := ⟨2, 2⟩, velocity := ⟨0, 0⟩ }

/-- Concrete JSNum state with finite values everywhere. -/
def c4State : GameState JSNum :=
  { player := { position := ⟨JSNum.finite 10, JSNum.finite 20⟩, velocity := ⟨JSNum.finite 0, JSNum.finite 0⟩ }
  , aiPlayer := { position := ⟨JSNum.finite 75, JSNum.finite 50⟩, velocity := ⟨JSNum.finite 0, JSNum.finite 0⟩ }
  , ball := { position := ⟨JSNum.finite 0, JSNum.finite 0⟩, velocity := ⟨JSNum.finite 0, JSNum.finite 0⟩ }
  , score := ⟨0, 0⟩ }

/-- Malformed 'move' payload: NaN in position.x, Infinity in velocity.x. -/
def c4Msg : MoveMsg JSNum :=
  { position := ⟨JSNum.nan, JSNum.finite 3⟩, velocity := ⟨JSNum.posInf, JSNum.finite 0⟩ }

/-- Concrete ball-into-left-goal collision pair. -/
def c5Pair : CollisionPair := { bodyA := BodyId.ball, bodyB := BodyId.leftGoal }

/-- Concrete 'move' payload for the score-preservation conjuncts. -/
def c5Move : MoveMsg ℚ := { position := ⟨1, 2⟩, velocity := ⟨3, 4⟩ }

/-- Concrete 'kick' payload for the score-preservation conjuncts. -/
def c5Kick : KickMsg ℚ := { ballPosition := ⟨5, 6⟩, ballVelocity := ⟨7, 8⟩ }

/-- Concrete 'kick' payload for the relay refutation. -/
def c6Kick : KickMsg ℚ := { ballPosition := ⟨1, 2⟩, ballVelocity := ⟨3, 4⟩ }

/-- Concrete 'move' payload for the relay refutation. -/
def c6Move : MoveMsg ℚ := { position := ⟨5, 6⟩, velocity := ⟨7, 8⟩ }

/-- Square root oracle for the tick-emission refutation: 2500 ↦ 50. -/
def c8Sqrt : ℚ → ℚ := fun q => if q = 2500 then 50 else 0

/-- Concrete state for the tick-emission refutation: the ball sits exactly
50 units from the AI player and in the AI half of a 40-wide field. -/
def c8State : GameState ℚ :=
  { player := { position := ⟨10, 50⟩, velocity := ⟨2, 3⟩ }
  , aiPlayer := { position := ⟨0, 0⟩, velocity := ⟨0, 0⟩ }
  , ball := { position := ⟨30, 40⟩, velocity := ⟨0, 0⟩ }
  , score := ⟨0, 0⟩ }

/-- Square root oracle for the kick-range witness: 2500 ↦ 50. -/
def c10Sqrt : ℚ → ℚ := fun q => if q = 2500 then 50 else 0

/-- Kicker at the origin for the kick-range witness. -/
def c10Kicker : BodyState ℚ := { position := ⟨0, 0⟩, velocity := ⟨0, 0⟩ }

/-- Ball exactly 50 units from the kicker for the kick-range witness. -/
def c10Ball : BodyState ℚ := { position := ⟨30, 40⟩, velocity := ⟨1, 1⟩ }

/-- C1: the claim says entities under local-authoritative control are never
mutated by incoming snapshots. The code contradicts it: at a concrete state
and incoming 'move' payload, the receive handler overwrites the locally
controlled player's position and velocity with the received values, so the
local player does not keep its own simulated state. -/
theorem move_handler_overwrites_local_player :
    (onMove sampleState c1Msg).player.position = c1Msg.position
  ∧ (onMove sampleState c1Msg).player.velocity = c1Msg.velocity
  ∧ (onMove sampleState c1Msg).player.position ≠ sampleState.player.position
  ∧ (onMove sampleState c1Msg).player.velocity ≠ sampleState.player.velocity := by
  refine ⟨rfl, rfl, ?_, ?_⟩ <;> decide

/-- C2 counterexample: at a concrete state whose ball sits at the origin and
a received 'kick' snapshot 10 units away (an error well within any snap
threshold, 10 ≤ 50), the post-application position equals the remote
snapshot exactly instead of the blended position local + 0.3 * error, so the
claimed exponential correction for small errors does not happen. -/
theorem kick_snapshot_not_blended :
    magnitude sqrtC2 (vsub c2Kick.ballPosition sampleState.ball.position) = 10
  ∧ (10 : ℚ) ≤ 50
  ∧ (onKick sampleState c2Kick).ball.position = c2Kick.ballPosition
  ∧ (onKick sampleState c2Kick).ball.position
      ≠ vadd sampleState.ball.position
          (vmult (vsub c2Kick.ballPosition sampleState.ball.position) (3/10)) := by
  refine ⟨?_, by norm_num, rfl, ?_⟩
  · norm_num [magnitude, vsub, c2Kick, sampleState, sqrtC2]
  · simp only [onKick, vadd, vmult, vsub, c2Kick, sampleState, ne_eq, Vec2.mk.injEq]
    norm_num

/-- C2 amended: the receiver never blends; every received snapshot is applied
as an instant snap, so the post-application position and velocity equal the
received values exactly, whatever the error magnitude. -/
theorem snapshot_always_instant_snap (s : GameState ℚ) (k : KickMsg ℚ) (m : MoveMsg ℚ) :
    (onKick s k).ball.position = k.ballPosition
  ∧ (onKick s k).ball.velocity = k.ballVelocity
  ∧ (onMove s m).player.position = m.position
  ∧ (onMove s m).player.velocity = m.velocity :=
  ⟨rfl, rfl, rfl, rfl⟩

/-- C3 counterexample: messages carry no sequence number and the receiver
keeps no lastApplied counter, so re-delivering an older snapshot after a
newer one is not discarded: it mutates the state again, moving the player
back to the stale position. -/
theorem stale_snapshot_mutates_state :
    (onMove (onMove (onMove sampleState c3A) c3B) c3A).player.position = c3A.position
  ∧ c3A.position ≠ c3B.position
  ∧ onMove (onMove (onMove sampleState c3A) c3B) c3A ≠ onMove (onMove sampleState c3A) c3B := by
  refine ⟨rfl, by decide, by decide⟩

/-- C3 amended: the receiver applies every received snapshot unconditionally
and statelessly; the result after any earlier application is exactly the
result of applying the last snapshot alone, so there is no staleness or
duplicate rejection. -/
theorem snapshot_application_unconditional (s : GameState ℚ) (a b : MoveMsg ℚ) :
    onMove (onMove s a) b = onMove s b :=
  rfl

/-- C4 counterexample: a received 'move' payload with NaN in position.x and
Infinity in velocity.x is not rejected; the handler copies the non-finite
values straight into the simulated player state. -/
theorem nonfinite_snapshot_propagates :
    (onMove c4State c4Msg).player.position.x = JSNum.nan
  ∧ (onMove c4State c4Msg).player.velocity.x = JSNum.posInf
  ∧ JSNum.isFinite (onMove c4State c4Msg).player.position.x = false
  ∧ (onMove c4State c4Msg).player ≠ c4State.player := by
  refine ⟨rfl, rfl, rfl, by decide⟩

/-- C4 amended: the receive handler performs no finiteness validation at all;
it copies the received position and velocity verbatim into the entity, so
non-finite components propagate into the simulation. -/
theorem snapshot_no_finiteness_check (s : GameState JSNum) (d : MoveMsg JSNum) :
    (onMove s d).player.position = d.position
  ∧ (onMove s d).player.velocity = d.velocity :=
  ⟨rfl, rfl⟩

/-- C6: the claim says the relay forwards both 'move' and 'kick' messages.
The server registers a listener only for 'move'; evaluated at a concrete
'kick' message the relay forwards nothing, while the same client code emits
'kick' and registers a receive handler for it. -/
theorem server_drops_kick_messages :
    serverRelay (ClientMsg.kick c6Kick) = []
  ∧ serverRelay (ClientMsg.move c6Move) = [ClientMsg.move c6Move] :=
  ⟨rfl, rfl⟩

/-- C7: the claim says the match transitions ACTIVE to ENDED when the timer
expires or a side reaches the win score 5. After five goals for player1 the
current score reaches the threshold, yet the timer tick keeps the session in
PLAYING and merely decrements the clock, because the interval callback reads
the score binding captured when the effect started (always 0-0); only timer
expiry ends the match, after which goal events no longer apply. -/
theorem win_score_never_ends_match :
    fiveRightGoals.score.player1 = 5
  ∧ WINNING_SCORE ≤ max fiveRightGoals.score.player1 fiveRightGoals.score.player2
  ∧ (sessionTimerTick fiveRightGoals).phase = GamePhase.PLAYING
  ∧ (sessionTimerTick fiveRightGoals).timeLeft = GAME_DURATION - 1
  ∧ (sessionTimerTick { fiveRightGoals with timeLeft := 0 }).phase = GamePhase.END
  ∧ applyGoalCollision GoalSide.left { fiveRightGoals with phase := GamePhase.END }
      = { fiveRightGoals with phase := GamePhase.END } := by
  refine ⟨by decide, by decide, by decide, by decide, by decide, by decide⟩

/-- Helper: kickBall of the minimal variant emits only 'kick' messages,
never a 'move'. -/
theorem kickBallMin_msgs_not_move (sqrtQ : ℚ → ℚ) (a b : BodyState ℚ) :
    ((kickBallMin sqrtQ a b).msgs).countP ClientMsg.isMove = 0 := by
  simp only [kickBallMin]
  split_ifs <;> simp [List.countP_cons, List.countP_nil, ClientMsg.isMove]

/-- C5: for a collisionStart event consisting of one ball-goal pair, exactly
one score increments by exactly one (leftGoal increments player2, rightGoal
increments player1), scores stay non-negative, and the socket receive
handlers never change the score, so redelivery or reordering of 'move' and
'kick' messages around the goal cannot double-count it. -/
theorem goal_increments_exactly_one_score (w h : ℚ) (s : GameState ℚ) (p : CollisionPair)
    (m : MoveMsg ℚ) (k : KickMsg ℚ)
    (h1 : 0 ≤ s.score.player1) (h2 : 0 ≤ s.score.player2) :
    (0 ≤ (onCollisionStart w h s [p]).score.player1
      ∧ 0 ≤ (onCollisionStart w h s [p]).score.player2)
  ∧ (isLeftGoalPair p = true →
       (onCollisionStart w h s [p]).score.player2 = s.score.player2 + 1
     ∧ (onCollisionStart w h s [p]).score.player1 = s.score.player1)
  ∧ (isRightGoalPair p = true →
       (onCollisionStart w h s [p]).score.player1 = s.score.player1 + 1
     ∧ (onCollisionStart w h s [p]).score.player2 = s.score.player2)
  ∧ (onMove s m).score = s.score
  ∧ (onKick s k).score = s.score := by
  rcases p with ⟨a, b⟩
  cases a <;> cases b <;>
    simp_all [onCollisionStart, handlePair, resetPositions, isLeftGoalPair, isRightGoalPair,
      onMove, onKick] <;>
    omega

/-- Witness for the goal-scoring theorem at a concrete left-goal collision. -/
theorem goal_increments_exactly_one_score_witness :
    ((0 : ℤ) ≤ sampleState.score.player1 ∧ (0 : ℤ) ≤ sampleState.score.player2)
  ∧ ((0 ≤ (onCollisionStart 100 100 sampleState [c5Pair]).score.player1
        ∧ 0 ≤ (onCollisionStart 100 100 sampleState [c5Pair]).score.player2)
    ∧ (isLeftGoalPair c5Pair = true →
         (onCollisionStart 100 100 sampleState [c5Pair]).score.player2
             = sampleState.score.player2 + 1
       ∧ (onCollisionStart 100 100 sampleState [c5Pair]).score.player1
             = sampleState.score.player1)
    ∧ (isRightGoalPair c5Pair = true →
         (onCollisionStart 100 100 sampleState [c5Pair]).score.player1
             = sampleState.score.player1 + 1
       ∧ (onCollisionStart 100 100 sampleState [c5Pair]).score.player2
             = sampleState.score.player2)
    ∧ (onMove sampleState c5Move).score = sampleState.score
    ∧ (onKick sampleState c5Kick).score = sampleState.score) :=
  ⟨⟨by decide, by decide⟩,
    goal_increments_exactly_one_score 100 100 sampleState c5Pair c5Move c5Kick
      (by decide) (by decide)⟩

/-- C8 counterexample: a concrete simulation tick of the minimal networked
variant (its only beforeUpdate handler) emits no message at all, in
particular no 'move' snapshot of the locally controlled player, refuting
that snapshots are sent every tick. -/
theorem tick_emits_no_move_snapshot :
    (moveAIPlayer c8Sqrt 40 100 c8State).msgs = [] := by
  norm_num [moveAIPlayer, magnitude, vsub, c8State, c8Sqrt]

/-- C8 amended: 'move' snapshots of the local player are emitted only by the
keydown handler (exactly one per keydown, whatever the key); the per-tick
beforeUpdate handler never emits a 'move' snapshot. -/
theorem move_sent_only_on_keydown (sqrtQ : ℚ → ℚ) (w h : ℚ) (key : Key) (s : GameState ℚ) :
    ((moveAIPlayer sqrtQ w h s).msgs).countP ClientMsg.isMove = 0
  ∧ ((handleKeyDown sqrtQ key s).msgs).countP ClientMsg.isMove = 1 := by
  constructor
  · simp only [moveAIPlayer]
    split_ifs <;> simp [kickBallMin_msgs_not_move]
  · cases key <;>
      simp [handleKeyDown, List.countP_append, List.countP_cons, List.countP_nil,
        ClientMsg.isMove, kickBallMin_msgs_not_move]

/-- C9: after the ball-clamp section of the power-up variant's beforeUpdate
handler, the ball position lies inside [15, width-15] x [15, height-15], and
a coordinate that was clamped has its velocity component replaced by its
negation times 0.5 while the other component is untouched. -/
theorem ball_clamped_within_field (width height : ℚ) (pos vel : Vec2 ℚ)
    (hw : 30 ≤ width) (hh : 30 ≤ height) :
    15 ≤ (clampBall width height pos vel).1.x
  ∧ (clampBall width height pos vel).1.x ≤ width - 15
  ∧ 15 ≤ (clampBall width height pos vel).1.y
  ∧ (clampBall width height pos vel).1.y ≤ height - 15
  ∧ (clampBall width height pos vel).2.x
      = (if pos.x < 15 ∨ pos.x > width - 15 then -vel.x * 0.5 else vel.x)
  ∧ (clampBall width height pos vel).2.y
      = (if pos.y < 15 ∨ pos.y > height - 15 then -vel.y * 0.5 else vel.y) := by
  simp only [clampBall]
  split_ifs <;> (try dsimp only at *) <;> (try push_neg at *) <;>
    (try casesm* _ ∨ _, _ ∧ _) <;>
    refine ⟨?_, ?_, ?_, ?_, ?_, ?_⟩ <;> first | rfl | linarith

/-- Witness for the ball-clamp theorem on a 100 x 100 field with the ball
out of bounds on the left and below the bottom edge. -/
theorem ball_clamped_within_field_witness :
    ((30 : ℚ) ≤ 100 ∧ (30 : ℚ) ≤ 100)
  ∧ (15 ≤ (clampBall 100 100 ⟨-5, 200⟩ ⟨4, 6⟩).1.x
  ∧ (clampBall 100 100 ⟨-5, 200⟩ ⟨4, 6⟩).1.x ≤ 100 - 15
  ∧ 15 ≤ (clampBall 100 100 ⟨-5, 200⟩ ⟨4, 6⟩).1.y
  ∧ (clampBall 100 100 ⟨-5, 200⟩ ⟨4, 6⟩).1.y ≤ 100 - 15
  ∧ (clampBall 100 100 ⟨-5, 200⟩ ⟨4, 6⟩).2.x
      = (if (-5 : ℚ) < 15 ∨ (-5 : ℚ) > 100 - 15 then -(4 : ℚ) * 0.5 else 4)
  ∧ (clampBall 100 100 ⟨-5, 200⟩ ⟨4, 6⟩).2.y
      = (if (200 : ℚ) < 15 ∨ (200 : ℚ) > 100 - 15 then -(6 : ℚ) * 0.5 else 6)) :=
  ⟨⟨by norm_num, by norm_num⟩,
    ball_clamped_within_field 100 100 ⟨-5, 200⟩ ⟨4, 6⟩ (by norm_num) (by norm_num)⟩

/-- C10: when the kicker-to-ball distance is at least the kick range 50,
kickBall is a complete no-op in both variants: no force on the ball, no
sound, no 'kick' message; when the distance is strictly under 50 the minimal
variant applies the kick force along the normalised kicker-to-ball direction
(a positive multiple of the kicker-to-ball vector when the distance is
positive) and emits the 'kick' message. The hypotheses pin the supplied
square root at the one point where it is applied, so the magnitude is the
true Euclidean distance. -/
theorem kick_out_of_range_noop (sqrtQ : ℚ → ℚ) (ip : Bool) (pu : Option PowerUpType)
    (kicker ball : BodyState ℚ)
    (hnn : 0 ≤ magnitude sqrtQ (vsub ball.position kicker.position))
    (hsq : magnitude sqrtQ (vsub ball.position kicker.position)
             * magnitude sqrtQ (vsub ball.position kicker.position)
         = (vsub ball.position kicker.position).x * (vsub ball.position kicker.position).x
           + (vsub ball.position kicker.position).y * (vsub ball.position kicker.position).y) :
    (50 ≤ magnitude sqrtQ (vsub ball.position kicker.position) →
        kickBallMin sqrtQ kicker ball = { ballForce := none, soundPlayed := false, msgs := [] }
      ∧ kickBallPU sqrtQ ip pu kicker ball
          = { ballForce := none, soundPlayed := false, msgs := [] })
  ∧ (magnitude sqrtQ (vsub ball.position kicker.position) < 50 →
        (kickBallMin sqrtQ kicker ball).msgs
            = [ClientMsg.kick { ballPosition := ball.position, ballVelocity := ball.velocity }]
      ∧ (kickBallMin sqrtQ kicker ball).soundPlayed = false
      ∧ (kickBallMin sqrtQ kicker ball).ballForce
            = some (vmult (normalise sqrtQ (vsub ball.position kicker.position)) 0.02)
      ∧ (0 < magnitude sqrtQ (vsub ball.position kicker.position) →
           ∃ c : ℚ, 0 < c
             ∧ (kickBallMin sqrtQ kicker ball).ballForce
                 = some (vmult (vsub ball.position kicker.position) c))) := by
  constructor
  · intro hge
    have hn : ¬ magnitude sqrtQ (vsub ball.position kicker.position) < 50 := not_lt.mpr hge
    constructor
    · simp only [kickBallMin, if_neg hn]
    · simp only [kickBallPU, if_neg hn]
  · intro hlt
    refine ⟨?_, ?_, ?_, ?_⟩
    · simp only [kickBallMin, if_pos hlt]
    · simp only [kickBallMin, if_pos hlt]
    · simp only [kickBallMin, if_pos hlt]
    · intro hd0
      have hne : magnitude sqrtQ (vsub ball.position kicker.position) ≠ 0 :=
        ne_of_gt hd0
      refine ⟨(0.02 : ℚ) / magnitude sqrtQ (vsub ball.position kicker.position),
        div_pos (by norm_num) hd0, ?_⟩
      simp only [kickBallMin, if_pos hlt, normalise, if_neg hne, vmult,
        Option.some.injEq, Vec2.mk.injEq]
      constructor <;> (field_simp; try ring)

/-- Witness for the kick-range theorem with the kicker at the origin and the
ball at (30, 40), exactly 50 units away. -/
theorem kick_out_of_range_noop_witness :
    (0 ≤ magnitude c10Sqrt (vsub c10Ball.position c10Kicker.position)
  ∧ magnitude c10Sqrt (vsub c10Ball.position c10Kicker.position)
      * magnitude c10Sqrt (vsub c10Ball.position c10Kicker.position)
    = (vsub c10Ball.position c10Kicker.position).x * (vsub c10Ball.position c10Kicker.position).x
      + (vsub c10Ball.position c10Kicker.position).y * (vsub c10Ball.position c10Kicker.position).y)
  ∧ ((50 ≤ magnitude c10Sqrt (vsub c10Ball.position c10Kicker.position) →
        kickBallMin c10Sqrt c10Kicker c10Ball
            = { ballForce := none, soundPlayed := false, msgs := [] }
      ∧ kickBallPU c10Sqrt true none c10Kicker c10Ball
            = { ballForce := none, soundPlayed := false, msgs := [] })
  ∧ (magnitude c10Sqrt (vsub c10Ball.position c10Kicker.position) < 50 →
        (kickBallMin c10Sqrt c10Kicker c10Ball).msgs
            = [ClientMsg.kick { ballPosition := c10Ball.position, ballVelocity := c10Ball.velocity }]
      ∧ (kickBallMin c10Sqrt c10Kicker c10Ball).soundPlayed = false
      ∧ (kickBallMin c10Sqrt c10Kicker c10Ball).ballForce
            = some (vmult (normalise c10Sqrt (vsub c10Ball.position c10Kicker.position)) 0.02)
      ∧ (0 < magnitude c10Sqrt (vsub c10Ball.position c10Kicker.position) →
           ∃ c : ℚ, 0 < c
             ∧ (kickBallMin c10Sqrt c10Kicker c10Ball).ballForce
                 = some (vmult (vsub c10Ball.position c10Kicker.position) c)))) :=
  ⟨⟨by norm_num [magnitude, vsub, c10Sqrt, c10Ball, c10Kicker],
    by norm_num [magnitude, vsub, c10Sqrt, c10Ball, c10Kicker]⟩,
    kick_out_of_range_noop c10Sqrt true none c10Kicker c10Ball
      (by norm_num [magnitude, vsub, c10Sqrt, c10Ball, c10Kicker])
      (by norm_num [magnitude, vsub, c10Sqrt, c10Ball, c10Kicker])⟩

end Football
